import Mathlib

/-!
Shallow embedding of the trading-backend HTTP service (`src/app.py`) and
proofs of its specified request/response properties.

The service is a FastAPI application.  In this source tree the optional
modules `broker.angel_api` and `strategies.supertrend` do not exist, so the
`try`/`except` at the top of `app.py` always falls back to the built-in
stand-ins and sets `BROKER_OK = STRATEGY_OK = False`; the flags are still
modelled as parameters so that both branches of the `/orders` credential
gate can be stated.  Machine state threaded through handlers is the global
`TRADES` list.  Fallible capability invocations are modelled with `Except`.
-/

namespace TradingBackend

/-- A JSON value, as carried in request `params`/`payload` dictionaries and
in the dictionaries returned by the broker capability. -/
inductive Json where
  | null : Json
  | bool : Bool → Json
  | num : Rat → Json
  | str : String → Json
  | arr : List Json → Json
  | obj : List (String × Json) → Json
deriving Repr

/-- The four credential environment variables read once at process start
(`API_KEY`, `CLIENT_ID`, `PASSWORD`, `TOTP_SECRET` in `app.py`); `os.getenv`
with default `""` yields the empty string when a variable is unset. -/
structure Env where
  apiKey : String
  clientId : String
  password : String
  totpSecret : String
deriving Repr, DecidableEq

/-- Function `broker_connected()` from `app.py`: `bool(API_KEY and CLIENT_ID
and PASSWORD)` — Python string truthiness is non-emptiness, so this is the
conjunction of the first three variables being non-empty.  The TOTP secret
is not consulted. -/
def broker_connected (e : Env) : Bool :=
  (e.apiKey != "") && (e.clientId != "") && (e.password != "")

/-- The spec side of claim C3, following its words: "configured" means all
FOUR environment secrets are present and non-empty. -/
def allFourConfiguredSpec (e : Env) : Bool :=
  (e.apiKey != "") && (e.clientId != "") && (e.password != "") && (e.totpSecret != "")

/-- An HTTP handler outcome: a 200 body, or an `HTTPException` with a status
code and a detail message. -/
inductive HResult (α : Type) where
  | ok : α → HResult α
  | err : Nat → String → HResult α
deriving Repr, DecidableEq

/-- Is the outcome an error response? -/
def HResult.isErr {α : Type} : HResult α → Bool
  | .ok _ => false
  | .err _ _ => true

/-- An `OrderRequest` body as posted to `/orders`, before pydantic
validation.  `order_type` is `none` when the field is omitted (pydantic then
applies the default `"MARKET"`); `price` is optional. -/
structure OrderBody where
  symbol : String
  side : String
  qty : Int
  order_type : Option String
  price : Option Rat
deriving Repr, DecidableEq

/-- The pydantic constraints on `OrderRequest`: `side` matches
`^(BUY|SELL)$`, `qty > 0`, `order_type` (or its default `"MARKET"`) matches
`^(MARKET|LIMIT)$`, and `price`, when given, is `> 0`. -/
def validOrder (b : OrderBody) : Bool :=
  (b.side == "BUY" || b.side == "SELL") &&
  decide (0 < b.qty) &&
  (let ot := b.order_type.getD "MARKET"
   ot == "MARKET" || ot == "LIMIT") &&
  (match b.price with
   | none => true
   | some p => decide (0 < p))

/-- Python `dict.get`: the first value bound to `k`, if any. -/
def dictGet (d : List (String × Json)) (k : String) : Option Json :=
  match d.find? (fun kv => kv.1 == k) with
  | some kv => some kv.2
  | none => none

/-- The stand-in `AngelAPI.place_order`: returns a dictionary with a
synthesized order id `SIM-<current epoch second>` and status `"accepted"`;
it never raises. -/
def standin_place_order (now : Nat) (symbol side : String) (qty : Int)
    (order_type : String) : List (String × Json) :=
  [("order_id", .str ("SIM-" ++ toString now)),
   ("status", .str "accepted"),
   ("symbol", .str symbol),
   ("side", .str side),
   ("qty", .num (qty : Rat)),
   ("type", .str order_type)]

/-- A `TradeRecord` as appended to `TRADES` by the `/orders` handler. -/
structure TradeRec where
  ts : Nat
  symbol : String
  side : String
  qty : Int
  order_type : String
  price : Option Rat
  broker_ref : Option Json
  status : Json
deriving Repr

/-- The 200 body of POST `/orders`: literally `{"ok": True, "order": rec}`. -/
structure OrdersOkBody where
  ok : Bool
  order : TradeRec
deriving Repr

/-- The `place_order` handler for POST `/orders` (`app.py` lines 138-160),
including the pydantic validation FastAPI performs before the handler runs
(validation failure is a 422 client error and the handler body never
executes).  `brokerOk` is the process-wide `BROKER_OK` flag; `realPlace` is
the outcome of invoking the real broker capability when `BROKER_OK` is true
(`.error` models a raised exception); when `BROKER_OK` is false the
stand-in `AngelAPI` is used, whose `place_order` always returns.  The
result pairs the HTTP outcome with the post-state of `TRADES`. -/
def place_order (brokerOk : Bool) (realPlace : Except String (List (String × Json)))
    (e : Env) (now : Nat) (b : OrderBody) (trades : List TradeRec) :
    HResult OrdersOkBody × List TradeRec :=
  if validOrder b then
    if !broker_connected e && brokerOk then
      (.err 400 "Broker credentials missing in environment.", trades)
    else
      match (if brokerOk then realPlace
             else .ok (standin_place_order now b.symbol b.side b.qty
               (b.order_type.getD "MARKET"))) with
      | .error msg => (.err 500 ("Order failed: " ++ msg), trades)
      | .ok resp =>
        let trade_rec : TradeRec :=
          { ts := now
            symbol := b.symbol
            side := b.side
            qty := b.qty
            order_type := b.order_type.getD "MARKET"
            price := b.price
            broker_ref := dictGet resp "order_id"
            status := (dictGet resp "status").getD (.str "unknown") }
        (.ok ⟨true, trade_rec⟩, trades ++ [trade_rec])
  else
    (.err 422 "request validation failed", trades)

/-- The record the stand-in path of `/orders` appends for a valid body. -/
def standinTradeRec (now : Nat) (b : OrderBody) : TradeRec :=
  { ts := now
    symbol := b.symbol
    side := b.side
    qty := b.qty
    order_type := b.order_type.getD "MARKET"
    price := b.price
    broker_ref := some (.str ("SIM-" ++ toString now))
    status := .str "accepted" }

/-- GET `/trades` (`app.py` lines 162-164): `{"count": len(TRADES),
"items": TRADES}`. -/
def trades_endpoint (trades : List TradeRec) : Nat × List TradeRec :=
  (trades.length, trades)

/-- All orders of a batch placed sequentially through POST `/orders` in the
stand-in configuration (`BROKER_OK = False`): each element pairs the body
with the epoch second at which it is placed; the fold threads the `TRADES`
list. -/
def placeAll (realPlace : Except String (List (String × Json))) (e : Env)
    (reqs : List (OrderBody × Nat)) (trades : List TradeRec) : List TradeRec :=
  reqs.foldl (fun ts p => (place_order false realPlace e p.2 p.1 ts).2) trades

/-- The 200 body of GET `/health` (`app.py` lines 108-115). -/
structure HealthResp where
  status : String
  time : Nat
  broker_env_configured : Bool
  modules_broker : Bool
  modules_strategy : Bool
deriving Repr, DecidableEq

/-- The `health` handler for GET `/health`. -/
def health (e : Env) (now : Nat) (brokerOk strategyOk : Bool) : HealthResp :=
  { status := "ok"
    time := now
    broker_env_configured := broker_connected e
    modules_broker := brokerOk
    modules_strategy := strategyOk }

/-- The 200 body of GET `/config` (`app.py` lines 117-128): presence flags
`bool(...)` for the four secrets, plus the module flags. -/
structure ConfigResp where
  api_key_set : Bool
  client_id_set : Bool
  password_set : Bool
  totp_secret_set : Bool
  modules_broker : Bool
  modules_strategy : Bool
deriving Repr, DecidableEq

/-- The `config` handler for GET `/config`. -/
def config (e : Env) (brokerOk strategyOk : Bool) : ConfigResp :=
  { api_key_set := e.apiKey != ""
    client_id_set := e.clientId != ""
    password_set := e.password != ""
    totp_secret_set := e.totpSecret != ""
    modules_broker := brokerOk
    modules_strategy := strategyOk }

/-- A `StrategyRequest` body as posted to `/strategy/run`: `timeframe` is
`none` when omitted (pydantic default `"5m"`), `params` is `none` when
omitted (pydantic default `{}`). -/
structure StrategyBody where
  symbol : String
  timeframe : Option String
  params : Option (List (String × Json))
deriving Repr

/-- The result dictionary of the stand-in `supertrend_signal` (`app.py`
lines 41-44). -/
structure SignalResult where
  symbol : String
  timeframe : String
  signal : String
  confidence : Rat
deriving Repr

/-- The stand-in `supertrend_signal` body: BUY on an even epoch second,
SELL on an odd one, with fixed confidence 0.55. -/
def supertrend_signal (now : Nat) (symbol timeframe : String) : SignalResult :=
  { symbol := symbol
    timeframe := timeframe
    signal := if now % 2 == 0 then "BUY" else "SELL"
    confidence := 0.55 }

/-- The call `supertrend_signal(req.symbol, req.timeframe, **params)`.
`symbol` and `timeframe` are passed positionally, so a `params` key named
`symbol` or `timeframe` makes the call itself raise `TypeError: got
multiple values ...` (Python keyword-expansion semantics); any other extra
keyword is absorbed by the `**kwargs` parameter and ignored by the body. -/
def call_supertrend_signal (now : Nat) (symbol timeframe : String)
    (kwargs : List (String × Json)) : Except String SignalResult :=
  if kwargs.any (fun kv => kv.1 == "symbol") then
    .error "supertrend_signal got multiple values for argument symbol"
  else if kwargs.any (fun kv => kv.1 == "timeframe") then
    .error "supertrend_signal got multiple values for argument timeframe"
  else
    .ok (supertrend_signal now symbol timeframe)

/-- The 200 body of POST `/strategy/run`: `{"ok": True, "data": result}`. -/
structure StrategyOkBody where
  ok : Bool
  data : SignalResult
deriving Repr

/-- The `run_strategy` handler for POST `/strategy/run` (`app.py` lines
130-136) in the stand-in configuration (`STRATEGY_OK = False`, so the
module-level `supertrend_signal` is the stand-in): pydantic applies the
defaults, `req.params or {}` maps a missing dictionary to the empty one,
and any exception from the call is surfaced as a 500. -/
def run_strategy (now : Nat) (b : StrategyBody) : HResult StrategyOkBody :=
  match call_supertrend_signal now b.symbol (b.timeframe.getD "5m") (b.params.getD []) with
  | .ok r => .ok ⟨true, r⟩
  | .error msg => .err 500 ("Strategy error: " ++ msg)

/-- A `WebhookAlert` body as posted to `/webhook/alert`: `payload` is
`none` when omitted (pydantic default `{}`). -/
structure WebhookAlert where
  source : String
  event : String
  payload : Option (List (String × Json))
deriving Repr

/-- The receipt record built by the `/webhook/alert` handler. -/
structure WebhookRecord where
  ts : Nat
  source : String
  event : String
  payload : List (String × Json)
  ip : Option String
deriving Repr

/-- The 200 body of POST `/webhook/alert`: `{"ok": True, "received": rec}`. -/
structure WebhookOkBody where
  ok : Bool
  received : WebhookRecord
deriving Repr

/-- The `webhook_alert` handler for POST `/webhook/alert` (`app.py` lines
166-177): builds the receipt from the alert, the current time and
`request.client.host` (absent when there is no client), returns it, and
touches no process state — the `TRADES` list is threaded through
unchanged. -/
def webhook_alert (now : Nat) (a : WebhookAlert) (clientHost : Option String)
    (trades : List TradeRec) : WebhookOkBody × List TradeRec :=
  ({ ok := true
     received :=
      { ts := now
        source := a.source
        event := a.event
        payload := a.payload.getD []
        ip := clientHost } }, trades)

theorem place_order_standin_valid (realPlace : Except String (List (String × Json)))
    (e : Env) (now : Nat) (b : OrderBody) (trades : List TradeRec)
    (hv : validOrder b = true) :
    place_order false realPlace e now b trades =
      (.ok ⟨true, standinTradeRec now b⟩, trades ++ [standinTradeRec now b]) := by
  simp [place_order, hv, standin_place_order, standinTradeRec, dictGet]

/-- The pydantic constraints of `OrderRequest`, spelled out propositionally. -/
theorem validOrder_iff (b : OrderBody) : validOrder b = true ↔
    (b.side = "BUY" ∨ b.side = "SELL") ∧ 0 < b.qty ∧
    (b.order_type.getD "MARKET" = "MARKET" ∨ b.order_type.getD "MARKET" = "LIMIT") ∧
    (∀ p : Rat, b.price = some p → 0 < p) := by
  cases hp : b.price <;> simp [validOrder, hp, and_assoc]

/-- Sequential placement in the stand-in configuration appends the derived
records at the tail, one per order, in request order. -/
theorem placeAll_eq (realPlace : Except String (List (String × Json))) (e : Env)
    (reqs : List (OrderBody × Nat)) (init : List TradeRec)
    (hv : ∀ p ∈ reqs, validOrder p.1 = true) :
    placeAll realPlace e reqs init = init ++ reqs.map (fun p => standinTradeRec p.2 p.1) := by
  induction reqs generalizing init with
  | nil => simp [placeAll]
  | cons q rest ih =>
    have hq : validOrder q.1 = true := hv q (List.mem_cons_self q rest)
    have hrest : ∀ p ∈ rest, validOrder p.1 = true :=
      fun p hp => hv p (List.mem_cons_of_mem q hp)
    calc placeAll realPlace e (q :: rest) init
        = placeAll realPlace e rest ((place_order false realPlace e q.2 q.1 init).2) := rfl
      _ = placeAll realPlace e rest (init ++ [standinTradeRec q.2 q.1]) := by
          rw [place_order_standin_valid realPlace e q.2 q.1 init hq]
      _ = init ++ (q :: rest).map (fun p => standinTradeRec p.2 p.1) := by
          rw [ih _ hrest]; simp

/-- C1: for every `OrderRequest` body satisfying the schema constraints
(side in BUY/SELL, qty > 0, order_type in MARKET/LIMIT, price absent or
positive), POST `/orders` — with the stand-in order capability, which is
what this source tree always resolves since `broker.angel_api` does not
exist in it — returns 200 with `ok = true` and an order record, and appends
exactly that one record to the trade list; its symbol, side, qty,
order_type and price equal those of the request. -/
theorem claim_C1_orders_success (realPlace : Except String (List (String × Json)))
    (e : Env) (now : Nat) (b : OrderBody) (trades : List TradeRec)
    (hv : validOrder b = true) :
    ∃ tr : TradeRec,
      place_order false realPlace e now b trades = (.ok ⟨true, tr⟩, trades ++ [tr]) ∧
      tr.symbol = b.symbol ∧ tr.side = b.side ∧ tr.qty = b.qty ∧
      tr.order_type = b.order_type.getD "MARKET" ∧ tr.price = b.price :=
  ⟨standinTradeRec now b,
    place_order_standin_valid realPlace e now b trades hv, rfl, rfl, rfl, rfl, rfl⟩

/-- C1 witness: a concrete valid LIMIT order at an empty trade list. -/
theorem claim_C1_orders_success_witness :
    validOrder ⟨"NIFTY", "BUY", 5, some "LIMIT", some 100⟩ = true ∧
    ∃ tr : TradeRec,
      place_order false (.ok []) ⟨"", "", "", ""⟩ 7
          ⟨"NIFTY", "BUY", 5, some "LIMIT", some 100⟩ [] = (.ok ⟨true, tr⟩, [] ++ [tr]) ∧
      tr.symbol = "NIFTY" ∧ tr.side = "BUY" ∧ tr.qty = 5 ∧
      tr.order_type = (some "LIMIT").getD "MARKET" ∧ tr.price = some 100 :=
  ⟨by decide,
    claim_C1_orders_success (.ok []) ⟨"", "", "", ""⟩ 7
      ⟨"NIFTY", "BUY", 5, some "LIMIT", some 100⟩ [] (by decide)⟩

/-- C2: an `OrderRequest` body with `qty ≤ 0`, or a side outside
{BUY, SELL}, or an order_type outside {MARKET, LIMIT}, is rejected by
request validation with a 422 client error before the handler body — hence
before any capability — runs, and the trade list is unchanged; the outcome
is the same for every capability configuration (`brokerOk`, `realPlace`). -/
theorem claim_C2_orders_validation (brokerOk : Bool)
    (realPlace : Except String (List (String × Json)))
    (e : Env) (now : Nat) (b : OrderBody) (trades : List TradeRec)
    (hinv : b.qty ≤ 0 ∨ (b.side ≠ "BUY" ∧ b.side ≠ "SELL") ∨
      (b.order_type.getD "MARKET" ≠ "MARKET" ∧ b.order_type.getD "MARKET" ≠ "LIMIT")) :
    place_order brokerOk realPlace e now b trades =
      (.err 422 "request validation failed", trades) := by
  have hf : validOrder b = false := by
    rcases Bool.eq_false_or_eq_true (validOrder b) with h | h
    · exfalso
      rcases (validOrder_iff b).mp h with ⟨hside, hqty, hot, _⟩
      rcases hinv with h1 | ⟨h1, h2⟩ | ⟨h1, h2⟩
      · omega
      · rcases hside with hs | hs <;> simp [hs] at h1 h2
      · rcases hot with hs | hs <;> simp [hs] at h1 h2
    · exact h
  simp [place_order, hf]

/-- C2 witness: a SELL with `qty = 0` is rejected and appends nothing. -/
theorem claim_C2_orders_validation_witness :
    ((0 : Int) ≤ 0 ∨ ("SELL" ≠ "BUY" ∧ "SELL" ≠ "SELL") ∨
      ((some "MARKET").getD "MARKET" ≠ "MARKET" ∧ (some "MARKET").getD "MARKET" ≠ "LIMIT")) ∧
    place_order true (.ok []) ⟨"k", "c", "p", "t"⟩ 3
        ⟨"NIFTY", "SELL", 0, some "MARKET", none⟩ [] =
      (.err 422 "request validation failed", []) :=
  ⟨Or.inl le_rfl,
    claim_C2_orders_validation true (.ok []) ⟨"k", "c", "p", "t"⟩ 3
      ⟨"NIFTY", "SELL", 0, some "MARKET", none⟩ [] (Or.inl le_rfl)⟩

/-- C3 counterexample: with API key, client id and password set but the
TOTP secret empty, the configured-credentials flag reported by `/health`
(and used by the `/orders` gate) is `true`, although not all four secrets
are non-empty — the claim "true iff all four are present and non-empty" is
false on the code, which never consults the TOTP secret. -/
theorem claim_C3_counterexample :
    (health ⟨"AK", "CID", "PW", ""⟩ 0 false false).broker_env_configured = true ∧
    allFourConfiguredSpec ⟨"AK", "CID", "PW", ""⟩ = false := by
  exact ⟨rfl, rfl⟩

/-- C3 amended: the configured-credentials flag (the `broker_env_configured`
field of `/health`, computed by `broker_connected`) is true iff the API
key, client id and password are all non-empty; the TOTP secret is not
consulted. -/
theorem claim_C3_amended_flag (e : Env) (now : Nat) (brokerOk strategyOk : Bool) :
    (health e now brokerOk strategyOk).broker_env_configured = broker_connected e ∧
    ((health e now brokerOk strategyOk).broker_env_configured = true ↔
      (e.apiKey ≠ "" ∧ e.clientId ≠ "" ∧ e.password ≠ "")) := by
  refine ⟨rfl, ?_⟩
  simp [health, broker_connected, and_assoc]

/-- C4: for a schema-valid body, POST `/orders` answers the 400
"credentials missing" error exactly when the real capability was resolved
(`BROKER_OK` true) and the configured-credentials flag is false; in
particular the stand-in path (`BROKER_OK` false) never rejects for missing
credentials, whatever the environment holds. -/
theorem claim_C4_credentials_gate (brokerOk : Bool)
    (realPlace : Except String (List (String × Json)))
    (e : Env) (now : Nat) (b : OrderBody) (trades : List TradeRec)
    (hv : validOrder b = true) :
    (place_order brokerOk realPlace e now b trades).1 =
        .err 400 "Broker credentials missing in environment." ↔
      (brokerOk = true ∧ broker_connected e = false) := by
  cases hb : broker_connected e
  · cases brokerOk
    · simp [place_order, hv, hb]
    · simp [place_order, hv, hb]
  · cases brokerOk
    · simp [place_order, hv, hb]
    · cases realPlace <;> simp [place_order, hv, hb]

/-- C4 witness: real capability resolved, all credentials empty, valid
body — the response is exactly the 400 error, matching the gate. -/
theorem claim_C4_credentials_gate_witness :
    validOrder ⟨"NIFTY", "BUY", 1, none, none⟩ = true ∧
    ((place_order true (.ok []) ⟨"", "", "", ""⟩ 9
        ⟨"NIFTY", "BUY", 1, none, none⟩ []).1 =
          .err 400 "Broker credentials missing in environment." ↔
      (true = true ∧ broker_connected ⟨"", "", "", ""⟩ = false)) :=
  ⟨by decide,
    claim_C4_credentials_gate true (.ok []) ⟨"", "", "", ""⟩ 9
      ⟨"NIFTY", "BUY", 1, none, none⟩ [] (by decide)⟩

/-- C5: after any batch of successfully placed orders (stand-in
configuration, all bodies schema-valid), GET `/trades` returns the
`TradeRecord`s in exactly insertion order — the initial list followed by
one derived record per request, in request order — with `count` equal to
the length of the returned items list. -/
theorem claim_C5_trades_insertion_order (realPlace : Except String (List (String × Json)))
    (e : Env) (reqs : List (OrderBody × Nat)) (init : List TradeRec)
    (hv : ∀ p ∈ reqs, validOrder p.1 = true) :
    trades_endpoint (placeAll realPlace e reqs init) =
      ((init ++ reqs.map (fun p => standinTradeRec p.2 p.1)).length,
        init ++ reqs.map (fun p => standinTradeRec p.2 p.1)) := by
  rw [trades_endpoint, placeAll_eq realPlace e reqs init hv]

/-- C5 witness: two concrete valid orders placed from an empty list. -/
theorem claim_C5_trades_insertion_order_witness :
    (∀ p ∈ [((⟨"NIFTY", "BUY", 1, none, none⟩ : OrderBody), 10),
            ((⟨"BANKNIFTY", "SELL", 2, some "LIMIT", some 50⟩ : OrderBody), 11)],
      validOrder p.1 = true) ∧
    trades_endpoint (placeAll (.ok []) ⟨"", "", "", ""⟩
        [((⟨"NIFTY", "BUY", 1, none, none⟩ : OrderBody), 10),
         ((⟨"BANKNIFTY", "SELL", 2, some "LIMIT", some 50⟩ : OrderBody), 11)] []) =
      (([] ++ [((⟨"NIFTY", "BUY", 1, none, none⟩ : OrderBody), 10),
               ((⟨"BANKNIFTY", "SELL", 2, some "LIMIT", some 50⟩ : OrderBody), 11)].map
          (fun p : OrderBody × Nat => standinTradeRec p.2 p.1)).length,
        [] ++ [((⟨"NIFTY", "BUY", 1, none, none⟩ : OrderBody), 10),
               ((⟨"BANKNIFTY", "SELL", 2, some "LIMIT", some 50⟩ : OrderBody), 11)].map
          (fun p : OrderBody × Nat => standinTradeRec p.2 p.1)) :=
  ⟨by decide,
    claim_C5_trades_insertion_order (.ok []) ⟨"", "", "", ""⟩
      [((⟨"NIFTY", "BUY", 1, none, none⟩ : OrderBody), 10),
       ((⟨"BANKNIFTY", "SELL", 2, some "LIMIT", some 50⟩ : OrderBody), 11)] []
      (by decide)⟩

/-- C6: for two credential environments that agree on which of the four
variables are non-empty, GET `/health` (at the same instant) and GET
`/config` respond identically — the responses depend on the secrets only
through their presence, never through their raw values. -/
theorem claim_C6_secret_noninterference (e1 e2 : Env) (now : Nat)
    (brokerOk strategyOk : Bool)
    (hA : (e1.apiKey != "") = (e2.apiKey != ""))
    (hC : (e1.clientId != "") = (e2.clientId != ""))
    (hP : (e1.password != "") = (e2.password != ""))
    (hT : (e1.totpSecret != "") = (e2.totpSecret != "")) :
    health e1 now brokerOk strategyOk = health e2 now brokerOk strategyOk ∧
    config e1 brokerOk strategyOk = config e2 brokerOk strategyOk := by
  simp [health, config, broker_connected, hA, hC, hP, hT]

/-- C6 witness: two environments with different raw secrets but the same
presence pattern (first three set, TOTP unset) get identical responses. -/
theorem claim_C6_secret_noninterference_witness :
    ((("aaaa" : String) != "") = (("x" : String) != "") ∧
     (("bb" : String) != "") = (("yy" : String) != "") ∧
     (("cc" : String) != "") = (("zzz" : String) != "") ∧
     (("" : String) != "") = (("" : String) != "")) ∧
    (health ⟨"aaaa", "bb", "cc", ""⟩ 42 false false =
        health ⟨"x", "yy", "zzz", ""⟩ 42 false false ∧
      config ⟨"aaaa", "bb", "cc", ""⟩ false false =
        config ⟨"x", "yy", "zzz", ""⟩ false false) :=
  ⟨⟨rfl, rfl, rfl, rfl⟩,
    claim_C6_secret_noninterference ⟨"aaaa", "bb", "cc", ""⟩ ⟨"x", "yy", "zzz", ""⟩
      42 false false rfl rfl rfl rfl⟩

/-- C7: POST `/strategy/run` with the stand-in signal capability and empty
(or omitted) `params` returns 200 with `ok = true` and data whose symbol is
the requested one, whose timeframe is the request's or the default `"5m"`
when omitted, whose signal is BUY on an even epoch second and SELL on an
odd one, and whose confidence is the fixed 0.55. -/
theorem claim_C7_strategy_standin (now : Nat) (b : StrategyBody)
    (hp : b.params = none ∨ b.params = some []) :
    run_strategy now b = .ok ⟨true,
      { symbol := b.symbol
        timeframe := b.timeframe.getD "5m"
        signal := if now % 2 == 0 then "BUY" else "SELL"
        confidence := 0.55 }⟩ := by
  rcases hp with h | h <;>
    simp [run_strategy, h, call_supertrend_signal, supertrend_signal]

/-- C7 witness: `{"symbol": "NIFTY"}` with no timeframe and no params, at
an even second, yields timeframe `"5m"`, signal BUY, confidence 0.55. -/
theorem claim_C7_strategy_standin_witness :
    ((⟨"NIFTY", none, none⟩ : StrategyBody).params = none ∨
      (⟨"NIFTY", none, none⟩ : StrategyBody).params = some []) ∧
    run_strategy 4 ⟨"NIFTY", none, none⟩ =
      .ok ⟨true, { symbol := "NIFTY", timeframe := "5m", signal := "BUY",
                   confidence := 0.55 }⟩ :=
  ⟨Or.inl rfl, claim_C7_strategy_standin 4 ⟨"NIFTY", none, none⟩ (Or.inl rfl)⟩

/-- C8: POST `/webhook/alert` returns 200 with `ok = true` and a receipt
holding exactly the supplied source, event and payload plus the timestamp
and the caller IP, and leaves the process state (the trade list) unchanged;
the receipt is returned, not stored. -/
theorem claim_C8_webhook_frame (now : Nat) (a : WebhookAlert)
    (clientHost : Option String) (trades : List TradeRec) :
    (webhook_alert now a clientHost trades).2 = trades ∧
    (webhook_alert now a clientHost trades).1.ok = true ∧
    (webhook_alert now a clientHost trades).1.received.ts = now ∧
    (webhook_alert now a clientHost trades).1.received.source = a.source ∧
    (webhook_alert now a clientHost trades).1.received.event = a.event ∧
    (webhook_alert now a clientHost trades).1.received.payload = a.payload.getD [] ∧
    (webhook_alert now a clientHost trades).1.received.ip = clientHost :=
  ⟨rfl, rfl, rfl, rfl, rfl, rfl, rfl⟩

/-- C9: atomicity of POST `/orders` on failure — whenever the endpoint
answers an error (422 validation, 400 credentials, or 500 placement
failure), the trade list after the request equals the trade list before
it; an error response and an appended record never occur together. -/
theorem claim_C9_orders_atomicity (brokerOk : Bool)
    (realPlace : Except String (List (String × Json)))
    (e : Env) (now : Nat) (b : OrderBody) (trades : List TradeRec)
    (herr : (place_order brokerOk realPlace e now b trades).1.isErr = true) :
    (place_order brokerOk realPlace e now b trades).2 = trades := by
  rcases hv : validOrder b with _ | _
  · simp [place_order, hv]
  · rcases hg : !broker_connected e && brokerOk with _ | _
    · rcases hcall : (if brokerOk then realPlace
        else .ok (standin_place_order now b.symbol b.side b.qty
          (b.order_type.getD "MARKET"))) with msg | resp
      · simp [place_order, hv, hg, hcall]
      · exfalso
        simp [place_order, hv, hg, hcall, HResult.isErr] at herr
    · simp [place_order, hv, hg]

/-- C9 witness: real capability resolved with empty credentials — the 400
error occurs and the (empty) trade list is unchanged. -/
theorem claim_C9_orders_atomicity_witness :
    (place_order true (.ok []) ⟨"", "", "", ""⟩ 5
        ⟨"NIFTY", "BUY", 1, none, none⟩ []).1.isErr = true ∧
    (place_order true (.ok []) ⟨"", "", "", ""⟩ 5
        ⟨"NIFTY", "BUY", 1, none, none⟩ []).2 = [] :=
  ⟨by decide,
    claim_C9_orders_atomicity true (.ok []) ⟨"", "", "", ""⟩ 5
      ⟨"NIFTY", "BUY", 1, none, none⟩ [] (by decide)⟩

/-- C10: whenever the `params` dictionary of a schema-valid
`StrategyRequest` contains the key `"symbol"` or `"timeframe"`, expanding
it as keyword arguments collides with the positional arguments of
`supertrend_signal`, the call raises, and POST `/strategy/run` surfaces a
500 carrying the error message instead of a signal. -/
theorem claim_C10_params_collision (now : Nat) (b : StrategyBody)
    (h : ((b.params.getD []).any fun kv => kv.1 == "symbol" || kv.1 == "timeframe") = true) :
    ∃ msg : String, run_strategy now b = .err 500 ("Strategy error: " ++ msg) := by
  rcases hs : ((b.params.getD []).any fun kv => kv.1 == "symbol") with _ | _
  · have ht : ((b.params.getD []).any fun kv => kv.1 == "timeframe") = true := by
      obtain ⟨kv, hmem, hkv⟩ := List.any_eq_true.mp h
      rw [Bool.or_eq_true] at hkv
      rcases hkv with hk | hk
      · have hcontra : ((b.params.getD []).any fun kv => kv.1 == "symbol") = true :=
          List.any_eq_true.mpr ⟨kv, hmem, hk⟩
        rw [hs] at hcontra
        exact absurd hcontra (by simp)
      · exact List.any_eq_true.mpr ⟨kv, hmem, hk⟩
    exact ⟨"supertrend_signal got multiple values for argument timeframe",
      by simp [run_strategy, call_supertrend_signal, hs, ht]⟩
  · exact ⟨"supertrend_signal got multiple values for argument symbol",
      by simp [run_strategy, call_supertrend_signal, hs]⟩

/-- C10 witness: params carrying a `"symbol"` key makes `/strategy/run`
answer a 500 strategy error. -/
theorem claim_C10_params_collision_witness :
    (((some [("symbol", Json.null)] : Option (List (String × Json))).getD []).any
      fun kv => kv.1 == "symbol" || kv.1 == "timeframe") = true ∧
    ∃ msg : String, run_strategy 0 ⟨"NIFTY", none, some [("symbol", Json.null)]⟩ =
      .err 500 ("Strategy error: " ++ msg) :=
  ⟨by decide,
    claim_C10_params_collision 0 ⟨"NIFTY", none, some [("symbol", Json.null)]⟩ (by decide)⟩

end TradingBackend

